import Mathlib

/-!
Shallow embedding of the `icm42688p` driver (an ICM-42688-P six-axis IMU
register driver) and proofs about its register-access layer.

Bytes are `Nat` values kept below 256; a mock device register file is a
function from 7-bit register addresses to bytes.  Driver operations are
embedded as pure functions that return the produced value together with the
device register file after the operation and the list of SPI frames (byte
lists) the driver transmitted.
-/

namespace Icm42688p

/-- Mock device register file: register address to current byte. -/
abbrev Dev := Nat → Nat

/-- `Error` from `error.rs`. -/
inductive Error where
  | Pin
  | Spi
  | BadDeviceId
  | DataCorrupted
  deriving DecidableEq, Repr

deriving instance DecidableEq for Except

/-- `Bank` from `register.rs`. -/
inductive Bank where
  | Bank0
  | Bank1
  | Bank2
  | Bank3
  | Bank4
  deriving DecidableEq

/-- Discriminant of `Bank` (`bank as u8`). -/
def Bank.code : Bank → Nat
  | .Bank0 => 0
  | .Bank1 => 1
  | .Bank2 => 2
  | .Bank3 => 3
  | .Bank4 => 4

/-- `Bank0` register enum from `register.rs`. -/
inductive Bank0 where
  | DeviceConfig
  | IntConfig
  | FifoConfig
  | TempData1
  | TempData0
  | AccelDataX1
  | AccelDataX0
  | AccelDataY1
  | AccelDataY0
  | AccelDataZ1
  | AccelDataZ0
  | GyroDataX1
  | GyroDataX0
  | GyroDataY1
  | GyroDataY0
  | GyroDataZ1
  | GyroDataZ0
  | IntStatus
  | FifoCountH
  | FifoCountL
  | FifoData
  | SignalPathReset
  | IntfConfig0
  | IntfConfig1
  | PwrMgmt0
  | GyroConfig0
  | AccelConfig0
  | GyroConfig1
  | GyroAccelConfig0
  | AccelConfig1
  | TmstConfig
  | FifoConfig1
  | FifoConfig2
  | FifoConfig3
  | IntConfig0
  | IntConfig1
  | IntSource0
  | SelfTestConfig
  | WhoAmI
  | RegBankSel
  deriving DecidableEq

/-- Discriminants of `Bank0` (`*self as u8`), from `register.rs`. -/
def Bank0.address : Bank0 → Nat
  | .DeviceConfig => 0x11
  | .IntConfig => 0x14
  | .FifoConfig => 0x16
  | .TempData1 => 0x1D
  | .TempData0 => 0x1E
  | .AccelDataX1 => 0x1F
  | .AccelDataX0 => 0x20
  | .AccelDataY1 => 0x21
  | .AccelDataY0 => 0x22
  | .AccelDataZ1 => 0x23
  | .AccelDataZ0 => 0x24
  | .GyroDataX1 => 0x25
  | .GyroDataX0 => 0x26
  | .GyroDataY1 => 0x27
  | .GyroDataY0 => 0x28
  | .GyroDataZ1 => 0x29
  | .GyroDataZ0 => 0x2A
  | .IntStatus => 0x2D
  | .FifoCountH => 0x2E
  | .FifoCountL => 0x2F
  | .FifoData => 0x30
  | .SignalPathReset => 0x4B
  | .IntfConfig0 => 0x4C
  | .IntfConfig1 => 0x4D
  | .PwrMgmt0 => 0x4E
  | .GyroConfig0 => 0x4F
  | .AccelConfig0 => 0x50
  | .GyroConfig1 => 0x51
  | .GyroAccelConfig0 => 0x52
  | .AccelConfig1 => 0x53
  | .TmstConfig => 0x54
  | .FifoConfig1 => 0x5F
  | .FifoConfig2 => 0x60
  | .FifoConfig3 => 0x61
  | .IntConfig0 => 0x63
  | .IntConfig1 => 0x64
  | .IntSource0 => 0x65
  | .SelfTestConfig => 0x70
  | .WhoAmI => 0x75
  | .RegBankSel => 0x76

/-- `Register::bank` for `Bank0` from `register.rs`: always `Bank::Bank0`. -/
def Bank0.bank : Bank0 → Bank := fun _ => Bank.Bank0

/-- `Register::readable` for `Bank0` from `register.rs` (the exact `matches!`
list of the source). -/
def Bank0.readable : Bank0 → Bool
  | .DeviceConfig => true
  | .FifoConfig => true
  | .TempData1 => true
  | .TempData0 => true
  | .AccelDataX1 => true
  | .AccelDataX0 => true
  | .AccelDataY1 => true
  | .AccelDataY0 => true
  | .AccelDataZ1 => true
  | .AccelDataZ0 => true
  | .GyroDataX1 => true
  | .GyroDataX0 => true
  | .GyroDataY1 => true
  | .GyroDataY0 => true
  | .GyroDataZ1 => true
  | .GyroDataZ0 => true
  | .FifoCountH => true
  | .FifoCountL => true
  | _ => false

/-- `Register::writable` for `Bank0` from `register.rs` (the exact `matches!`
list of the source). -/
def Bank0.writable : Bank0 → Bool
  | .DeviceConfig => true
  | .FifoConfig => true
  | .PwrMgmt0 => true
  | .GyroConfig0 => true
  | .AccelConfig0 => true
  | .GyroConfig1 => true
  | .GyroAccelConfig0 => true
  | .AccelConfig1 => true
  | _ => false

/-- What a `&dyn Register` trait object exposes: address, owning bank and the
permission flags. -/
structure RegisterDesc where
  address : Nat
  bank : Bank
  readable : Bool
  writable : Bool
  deriving DecidableEq

/-- View a `Bank0` register as a `&dyn Register`. -/
def Bank0.toDesc (r : Bank0) : RegisterDesc :=
  ⟨r.address, r.bank, r.readable, r.writable⟩

/-- `BitRange` from `register.rs`. -/
structure BitRange where
  offset : Nat
  length : Nat
  deriving DecidableEq

/-- `BitRange::mask` from `register.rs`: `mask` starts at 0 and the loop body
is `mask &= 1 << i` for `i` in `offset .. offset + length`. -/
def BitRange.mask (r : BitRange) : Nat :=
  (List.range' r.offset r.length).foldl (fun m i => m &&& (1 <<< i)) 0

/-- `ACCEL_CONFIG0::ODR` from `register.rs`. -/
def ACCEL_CONFIG0.ODR : BitRange := ⟨0, 4⟩

/-- `ACCEL_CONFIG0::FS_SEL` from `register.rs`. -/
def ACCEL_CONFIG0.FS_SEL : BitRange := ⟨5, 3⟩

/-- `GYRO_CONFIG0::ODR` from `register.rs`. -/
def GYRO_CONFIG0.ODR : BitRange := ⟨0, 4⟩

/-- `GYRO_CONFIG0::FS_SEL` from `register.rs`. -/
def GYRO_CONFIG0.FS_SEL : BitRange := ⟨5, 3⟩

/-- `SIGNAL_PATH_RESET::FIFO_FLUSH` from `register.rs`: the constant `1 << 1`
(a bit mask, although `reset_fifo` in `lib.rs` uses it as a bit offset). -/
def SIGNAL_PATH_RESET.FIFO_FLUSH : Nat := 1 <<< 1

/-- `AccelOdr` from `config.rs`. -/
inductive AccelOdr where
  | Hz32k
  | Hz16k
  | Hz8k
  | Hz4k
  | Hz2k
  | Hz1k
  | Hz200
  | Hz100
  | Hz50
  | Hz25
  | Hz12_5
  | Hz6_25
  | Hz3_125
  | Hz1_5625
  | Hz500
  deriving DecidableEq, Fintype

/-- Discriminants of `AccelOdr` (`v as u8`). -/
def AccelOdr.code : AccelOdr → Nat
  | .Hz32k => 1
  | .Hz16k => 2
  | .Hz8k => 3
  | .Hz4k => 4
  | .Hz2k => 5
  | .Hz1k => 6
  | .Hz200 => 7
  | .Hz100 => 8
  | .Hz50 => 9
  | .Hz25 => 10
  | .Hz12_5 => 11
  | .Hz6_25 => 12
  | .Hz3_125 => 13
  | .Hz1_5625 => 14
  | .Hz500 => 15

/-- `TryFrom<u8> for AccelOdr` from `config.rs`. -/
def AccelOdr.try_from (value : Nat) : Except Error AccelOdr :=
  match value with
  | 1 => .ok .Hz32k
  | 2 => .ok .Hz16k
  | 3 => .ok .Hz8k
  | 4 => .ok .Hz4k
  | 5 => .ok .Hz2k
  | 6 => .ok .Hz1k
  | 7 => .ok .Hz200
  | 8 => .ok .Hz100
  | 9 => .ok .Hz50
  | 10 => .ok .Hz25
  | 11 => .ok .Hz12_5
  | 12 => .ok .Hz6_25
  | 13 => .ok .Hz3_125
  | 14 => .ok .Hz1_5625
  | 15 => .ok .Hz500
  | _ => .error .DataCorrupted

/-- `AccelRange` from `config.rs`. -/
inductive AccelRange where
  | G16
  | G8
  | G4
  | G2
  deriving DecidableEq, Fintype

/-- Discriminants of `AccelRange` (`range as u8`). -/
def AccelRange.code : AccelRange → Nat
  | .G16 => 0
  | .G8 => 1
  | .G4 => 2
  | .G2 => 3

/-- `AccelRange::sensitivity_scale_factor` from `config.rs` (LSB/g); the `f32`
constants are powers of two, so the rational values are exact. -/
def AccelRange.sensitivity_scale_factor : AccelRange → ℚ
  | .G16 => 2048
  | .G8 => 4096
  | .G4 => 8192
  | .G2 => 16384

/-- `TryFrom<u8> for AccelRange` from `config.rs`. -/
def AccelRange.try_from (value : Nat) : Except Error AccelRange :=
  match value with
  | 0 => .ok .G16
  | 1 => .ok .G8
  | 2 => .ok .G4
  | 3 => .ok .G2
  | _ => .error .DataCorrupted

/-- `GyroOdr` from `config.rs`. -/
inductive GyroOdr where
  | Hz32k
  | Hz16k
  | Hz8k
  | Hz4k
  | Hz2k
  | Hz1k
  | Hz200
  | Hz100
  | Hz50
  | Hz25
  | Hz12_5
  | Hz500
  deriving DecidableEq, Fintype

/-- Discriminants of `GyroOdr` (`v as u8`). -/
def GyroOdr.code : GyroOdr → Nat
  | .Hz32k => 1
  | .Hz16k => 2
  | .Hz8k => 3
  | .Hz4k => 4
  | .Hz2k => 5
  | .Hz1k => 6
  | .Hz200 => 7
  | .Hz100 => 8
  | .Hz50 => 9
  | .Hz25 => 10
  | .Hz12_5 => 11
  | .Hz500 => 15

/-- `TryFrom<u8> for GyroOdr` from `config.rs`. -/
def GyroOdr.try_from (value : Nat) : Except Error GyroOdr :=
  match value with
  | 1 => .ok .Hz32k
  | 2 => .ok .Hz16k
  | 3 => .ok .Hz8k
  | 4 => .ok .Hz4k
  | 5 => .ok .Hz2k
  | 6 => .ok .Hz1k
  | 7 => .ok .Hz200
  | 8 => .ok .Hz100
  | 9 => .ok .Hz50
  | 10 => .ok .Hz25
  | 11 => .ok .Hz12_5
  | 15 => .ok .Hz500
  | _ => .error .DataCorrupted

/-- `GyroRange` from `config.rs`. -/
inductive GyroRange where
  | Dps2000
  | Dps1000
  | Dps500
  | Dps250
  | Dps125
  | Dps62_5
  | Dps31_25
  | Dps15_625
  deriving DecidableEq, Fintype

/-- Discriminants of `GyroRange` (`range as u8`). -/
def GyroRange.code : GyroRange → Nat
  | .Dps2000 => 0
  | .Dps1000 => 1
  | .Dps500 => 2
  | .Dps250 => 3
  | .Dps125 => 4
  | .Dps62_5 => 5
  | .Dps31_25 => 6
  | .Dps15_625 => 7

/-- `GyroRange::sensitivity_scale_factor` from `config.rs`, with the decimal
`f32` literals read as exact rationals (no claim in this development depends
on the rounding of these non-dyadic constants). -/
def GyroRange.sensitivity_scale_factor : GyroRange → ℚ
  | .Dps2000 => 164 / 10
  | .Dps1000 => 328 / 10
  | .Dps500 => 655 / 10
  | .Dps250 => 131
  | .Dps125 => 262
  | .Dps62_5 => 5243 / 10
  | .Dps31_25 => 10486 / 10
  | .Dps15_625 => 20972 / 10

/-- `TryFrom<u8> for GyroRange` from `config.rs`. -/
def GyroRange.try_from (value : Nat) : Except Error GyroRange :=
  match value with
  | 0 => .ok .Dps2000
  | 1 => .ok .Dps1000
  | 2 => .ok .Dps500
  | 3 => .ok .Dps250
  | 4 => .ok .Dps125
  | 5 => .ok .Dps62_5
  | 6 => .ok .Dps31_25
  | 7 => .ok .Dps15_625
  | _ => .error .DataCorrupted

/-- `GyroMode` from `config.rs`. -/
inductive GyroMode where
  | Off
  | Standby
  | LowNoise
  deriving DecidableEq, Fintype

/-- Discriminants of `GyroMode`. -/
def GyroMode.code : GyroMode → Nat
  | .Off => 0
  | .Standby => 1
  | .LowNoise => 3

/-- `TryFrom<u8> for GyroMode` from `config.rs`. -/
def GyroMode.try_from (value : Nat) : Except Error GyroMode :=
  match value with
  | 0 => .ok .Off
  | 1 => .ok .Standby
  | 3 => .ok .LowNoise
  | _ => .error .DataCorrupted

/-- `AccelMode` from `config.rs`. -/
inductive AccelMode where
  | Off
  | LowPower
  | LowNoise
  deriving DecidableEq, Fintype

/-- Discriminants of `AccelMode`. -/
def AccelMode.code : AccelMode → Nat
  | .Off => 0
  | .LowPower => 2
  | .LowNoise => 3

/-- `TryFrom<u8> for AccelMode` from `config.rs`: note that the source arm
`0b00 | 0b01 => Ok(Self::Off)` also accepts code 1. -/
def AccelMode.try_from (value : Nat) : Except Error AccelMode :=
  match value with
  | 0 => .ok .Off
  | 1 => .ok .Off
  | 2 => .ok .LowPower
  | 3 => .ok .LowNoise
  | _ => .error .DataCorrupted

/-- `FifoMode` from `config.rs`. -/
inductive FifoMode where
  | Bypass
  | Stream
  | StopOnFull
  deriving DecidableEq, Fintype

/-- Discriminants of `FifoMode`. -/
def FifoMode.code : FifoMode → Nat
  | .Bypass => 0
  | .Stream => 1
  | .StopOnFull => 2

/-- `TryFrom<u8> for FifoMode` from `config.rs`: note that the source arm
`0b10 | 0b11 => Ok(Self::StopOnFull)` also accepts code 3. -/
def FifoMode.try_from (value : Nat) : Except Error FifoMode :=
  match value with
  | 0 => .ok .Bypass
  | 1 => .ok .Stream
  | 2 => .ok .StopOnFull
  | 3 => .ok .StopOnFull
  | _ => .error .DataCorrupted

/-- `PowerMode` from `config.rs` (deprecated in the source). -/
inductive PowerMode where
  | Sleep
  | Standby
  | AccelLowPower
  | AccelLowNoise
  | GyroLowNoise
  | SixAxisLowNoise
  deriving DecidableEq, Fintype

/-- Discriminants of `PowerMode`. -/
def PowerMode.code : PowerMode → Nat
  | .Sleep => 0
  | .Standby => 4
  | .AccelLowPower => 2
  | .AccelLowNoise => 3
  | .GyroLowNoise => 12
  | .SixAxisLowNoise => 15

/-- `TryFrom<u8> for PowerMode` from `config.rs`. -/
def PowerMode.try_from (value : Nat) : Except Error PowerMode :=
  match value with
  | 0 => .ok .Sleep
  | 4 => .ok .Standby
  | 2 => .ok .AccelLowPower
  | 3 => .ok .AccelLowNoise
  | 12 => .ok .GyroLowNoise
  | 15 => .ok .SixAxisLowNoise
  | _ => .error .DataCorrupted

/-- `ICM42688P_DEVICE_ID` from `lib.rs`. -/
def ICM42688P_DEVICE_ID : Nat := 0x47

/-- `SPI_WRITE_OPERATION` from `lib.rs`. -/
def SPI_WRITE_OPERATION : Nat := 0

/-- `SPI_READ_OPERATION` from `lib.rs`. -/
def SPI_READ_OPERATION : Nat := 0x80

/-- Modelled from the spec: the response bytes of the mock SPI slave during one
frame.  The slave is full duplex, so its byte `k` can depend only on frame
bytes before `k`: byte 0 (clocked while the address byte is still arriving) is
junk `0`; when the first byte has the read bit (bit 7) set, every later
response byte carries the register addressed by its low 7 bits. -/
def spiExchange (dev : Dev) (tx : List Nat) : List Nat :=
  match tx with
  | [] => []
  | c :: rest =>
    0 :: rest.map (fun _ => if c.testBit 7 then dev (c % 128) % 256 else 0)

/-- Modelled from the spec: the register-file effect of one SPI frame on the
mock device.  A two-byte frame whose first byte has the write bit (bit 7
clear) stores its second byte at the 7-bit address in its first byte; read
frames and incomplete frames change nothing. -/
def spiApplyFrame (dev : Dev) (tx : List Nat) : Dev :=
  match tx with
  | [c, d] =>
    if c.testBit 7 then dev
    else fun a => if a = c % 128 then d % 256 else dev a
  | _ => dev

/-- Modelled from the spec: `SpiBus::transfer_in_place` against the mock
device — the frame is clocked out, the register file is updated, and the
caller's buffer now holds the received bytes. -/
def transferInPlace (dev : Dev) (tx : List Nat) : Dev × List Nat :=
  (spiApplyFrame dev tx, spiExchange dev tx)

/-- Result of one driver operation run against the mock device: the value the
operation returns, the device register file afterwards, and the list of SPI
frames the driver transmitted, in order. -/
structure Out (α : Type) where
  res : α
  dev : Dev
  trace : List (List Nat)

/-- `read_register` from `lib.rs`: builds the two-byte buffer
`[reg.address() | SPI_READ_OPERATION, 0]`, exchanges it in place, and returns
`buf[1]`.  (Its `debug_assert!(reg.readable())` is examined separately.) -/
def read_register (dev : Dev) (reg : RegisterDesc) : Out Nat :=
  let tx := [reg.address ||| SPI_READ_OPERATION, 0]
  let r := transferInPlace dev tx
  ⟨r.2.getD 1 0, r.1, [tx]⟩

/-- `write_register` from `lib.rs`: transmits
`[reg.address() | SPI_WRITE_OPERATION, data]`.  (Its
`debug_assert!(reg.writable())` is examined separately.) -/
def write_register (dev : Dev) (reg : RegisterDesc) (data : Nat) : Out Unit :=
  let tx := [reg.address ||| SPI_WRITE_OPERATION, data % 256]
  let r := transferInPlace dev tx
  ⟨(), r.1, [tx]⟩

/-- `set_register_bits` from `lib.rs`: read the register, `buf &= !mask`,
`buf |= data << offset`, write the byte back.  `!` is bitwise complement on
`u8`, embedded as `· ^^^ 255`; the shift result is reduced mod 256 as a `u8`. -/
def set_register_bits (dev : Dev) (reg : RegisterDesc) (range : BitRange)
    (data : Nat) : Out Unit :=
  let r := read_register dev reg
  let buf := (r.res &&& (range.mask ^^^ 255)) ||| ((data <<< range.offset) % 256)
  let w := write_register r.dev reg buf
  ⟨(), w.dev, r.trace ++ w.trace⟩

/-- `select_bank` from `lib.rs`: ignores its register argument and writes the
bank code to `Bank0::RegBankSel`. -/
def select_bank (dev : Dev) (b : Bank) : Out Unit :=
  write_register dev Bank0.RegBankSel.toDesc b.code

/-- `device_id` from `lib.rs`. -/
def device_id (dev : Dev) : Out Nat :=
  read_register dev Bank0.WhoAmI.toDesc

/-- `new` from `lib.rs`: reads the identity register, fails with
`Error::BadDeviceId` when it differs from `ICM42688P_DEVICE_ID`. -/
def new (dev : Dev) : Out (Except Error Unit) :=
  let r := device_id dev
  ⟨if ¬(r.res = ICM42688P_DEVICE_ID) then .error .BadDeviceId else .ok (),
    r.dev, r.trace⟩

/-- `set_accel_range` from `lib.rs`. -/
def set_accel_range (dev : Dev) (range : AccelRange) : Out Unit :=
  set_register_bits dev Bank0.AccelConfig0.toDesc ACCEL_CONFIG0.FS_SEL range.code

/-- `accel_range` from `lib.rs`: `AccelConfig0 >> 5`, decoded. -/
def accel_range (dev : Dev) : Out (Except Error AccelRange) :=
  let r := read_register dev Bank0.AccelConfig0.toDesc
  ⟨AccelRange.try_from (r.res >>> 5), r.dev, r.trace⟩

/-- `accel_odr` from `lib.rs`: `AccelConfig0 & 0x0F`, decoded. -/
def accel_odr (dev : Dev) : Out (Except Error AccelOdr) :=
  let r := read_register dev Bank0.AccelConfig0.toDesc
  ⟨AccelOdr.try_from (r.res &&& 0x0F), r.dev, r.trace⟩

/-- `set_gyro_range` from `lib.rs`. -/
def set_gyro_range (dev : Dev) (range : GyroRange) : Out Unit :=
  set_register_bits dev Bank0.GyroConfig0.toDesc GYRO_CONFIG0.FS_SEL range.code

/-- `gyro_range` from `lib.rs`: `GyroConfig0 >> 5`, decoded. -/
def gyro_range (dev : Dev) : Out (Except Error GyroRange) :=
  let r := read_register dev Bank0.GyroConfig0.toDesc
  ⟨GyroRange.try_from (r.res >>> 5), r.dev, r.trace⟩

/-- `gyro_odr` from `lib.rs`: the source reads `Bank0::AccelConfig0` (not
`GyroConfig0`) and decodes its low four bits. -/
def gyro_odr (dev : Dev) : Out (Except Error GyroOdr) :=
  let r := read_register dev Bank0.AccelConfig0.toDesc
  ⟨GyroOdr.try_from (r.res &&& 0x0F), r.dev, r.trace⟩

/-- `power_mode` from `lib.rs`: `PwrMgmt0 & 0x0F`, decoded. -/
def power_mode (dev : Dev) : Out (Except Error PowerMode) :=
  let r := read_register dev Bank0.PwrMgmt0.toDesc
  ⟨PowerMode.try_from (r.res &&& 0x0F), r.dev, r.trace⟩

/-- `u16::from_be_bytes [hi, lo]`. -/
def u16_from_be (hi lo : Nat) : Nat := (hi % 256) * 256 + lo % 256

/-- `raw_acceleration` from `lib.rs`: per axis, the byte read from
`AccelData?0` is passed to `u16::from_be_bytes` first (as the high byte) and
the byte from `AccelData?1` second. -/
def raw_acceleration (dev : Dev) : Out (Nat × Nat × Nat) :=
  let x0 := read_register dev Bank0.AccelDataX0.toDesc
  let x1 := read_register x0.dev Bank0.AccelDataX1.toDesc
  let y0 := read_register x1.dev Bank0.AccelDataY0.toDesc
  let y1 := read_register y0.dev Bank0.AccelDataY1.toDesc
  let z0 := read_register y1.dev Bank0.AccelDataZ0.toDesc
  let z1 := read_register z0.dev Bank0.AccelDataZ1.toDesc
  ⟨(u16_from_be x0.res x1.res, u16_from_be y0.res y1.res,
      u16_from_be z0.res z1.res),
    z1.dev, x0.trace ++ x1.trace ++ y0.trace ++ y1.trace ++ z0.trace ++ z1.trace⟩

/-- `raw_angular_velocity` from `lib.rs`: same byte order as
`raw_acceleration`, over the gyro data registers. -/
def raw_angular_velocity (dev : Dev) : Out (Nat × Nat × Nat) :=
  let x0 := read_register dev Bank0.GyroDataX0.toDesc
  let x1 := read_register x0.dev Bank0.GyroDataX1.toDesc
  let y0 := read_register x1.dev Bank0.GyroDataY0.toDesc
  let y1 := read_register y0.dev Bank0.GyroDataY1.toDesc
  let z0 := read_register y1.dev Bank0.GyroDataZ0.toDesc
  let z1 := read_register z0.dev Bank0.GyroDataZ1.toDesc
  ⟨(u16_from_be x0.res x1.res, u16_from_be y0.res y1.res,
      u16_from_be z0.res z1.res),
    z1.dev, x0.trace ++ x1.trace ++ y0.trace ++ y1.trace ++ z0.trace ++ z1.trace⟩

/-- `raw_temperature` from `lib.rs`: `u16::from_be_bytes` with the byte from
`TempData0` first and the byte from `TempData1` second. -/
def raw_temperature (dev : Dev) : Out Nat :=
  let r0 := read_register dev Bank0.TempData0.toDesc
  let r1 := read_register r0.dev Bank0.TempData1.toDesc
  ⟨u16_from_be r0.res r1.res, r1.dev, r0.trace ++ r1.trace⟩

/-- `fifo_count` from `lib.rs`: `u16::from_be_bytes` with the byte from
`FifoCountL` first and the byte from `FifoCountH` second. -/
def fifo_count (dev : Dev) : Out Nat :=
  let r0 := read_register dev Bank0.FifoCountL.toDesc
  let r1 := read_register r0.dev Bank0.FifoCountH.toDesc
  ⟨u16_from_be r0.res r1.res, r1.dev, r0.trace ++ r1.trace⟩

/-- `acceleration` from `lib.rs`: raw samples first, then the range is read
back and each `u16` raw value is cast (unsigned, `x as f32`) and divided by
the sensitivity scale factor.  The `f32` arithmetic is exact here (integers
below 2^24 divided by powers of two), embedded over `ℚ`. -/
def acceleration (dev : Dev) : Out (Except Error (ℚ × ℚ × ℚ)) :=
  let raw := raw_acceleration dev
  let r := accel_range raw.dev
  ⟨match r.res with
    | .error e => .error e
    | .ok range =>
      .ok ((raw.res.1 : ℚ) / range.sensitivity_scale_factor,
        (raw.res.2.1 : ℚ) / range.sensitivity_scale_factor,
        (raw.res.2.2 : ℚ) / range.sensitivity_scale_factor),
    r.dev, raw.trace ++ r.trace⟩

/-- `angular_velocity` from `lib.rs`, embedded like `acceleration`. -/
def angular_velocity (dev : Dev) : Out (Except Error (ℚ × ℚ × ℚ)) :=
  let raw := raw_angular_velocity dev
  let r := gyro_range raw.dev
  ⟨match r.res with
    | .error e => .error e
    | .ok range =>
      .ok ((raw.res.1 : ℚ) / range.sensitivity_scale_factor,
        (raw.res.2.1 : ℚ) / range.sensitivity_scale_factor,
        (raw.res.2.2 : ℚ) / range.sensitivity_scale_factor),
    r.dev, raw.trace ++ r.trace⟩

/-- `temperature_celsius` from `lib.rs`: `(raw as f32) / 132.48 + 25.0`,
over `ℚ`. -/
def temperature_celsius (dev : Dev) : Out ℚ :=
  let r := raw_temperature dev
  ⟨(r.res : ℚ) / (13248 / 100) + 25, r.dev, r.trace⟩

/-- `temperature_fahrenheit` from `lib.rs`: `celsius * 1.8 + 32.0`, over `ℚ`. -/
def temperature_fahrenheit (dev : Dev) : Out ℚ :=
  let c := temperature_celsius dev
  ⟨c.res * (18 / 10) + 32, c.dev, c.trace⟩

/-- A fallible SPI transport, used to examine error propagation: `transfer`
either yields the received bytes or fails with an opaque bus error. -/
structure Bus where
  transfer : List Nat → Except Unit (List Nat)

/-- `read_register` from `lib.rs` over a fallible transport: a transport
failure is mapped to `Error::Spi` (`map_err`). -/
def read_register_on (bus : Bus) (reg : RegisterDesc) : Except Error Nat :=
  match bus.transfer [reg.address ||| SPI_READ_OPERATION, 0] with
  | .error _ => .error .Spi
  | .ok rx => .ok (rx.getD 1 0)

/-- `write_register` from `lib.rs` over a fallible transport. -/
def write_register_on (bus : Bus) (reg : RegisterDesc) (data : Nat) :
    Except Error Unit :=
  match bus.transfer [reg.address ||| SPI_WRITE_OPERATION, data % 256] with
  | .error _ => .error .Spi
  | .ok _ => .ok ()

/-- `set_register_bits` from `lib.rs` over a fallible transport: both the `?`
on the read and the final write propagate transport errors. -/
def set_register_bits_on (bus : Bus) (reg : RegisterDesc) (range : BitRange)
    (data : Nat) : Except Error Unit :=
  match read_register_on bus reg with
  | .error e => .error e
  | .ok buf =>
    write_register_on bus reg
      ((buf &&& (range.mask ^^^ 255)) ||| ((data <<< range.offset) % 256))

/-- Rust `Result::unwrap`: `none` models the panic taken on `Err`. -/
def unwrap {α : Type} (x : Except Error α) : Option α :=
  match x with
  | .ok a => some a
  | .error _ => none

/-- `reset_fifo` from `lib.rs`: `set_register_bits` on `SignalPathReset` with
`BitRange { offset: SIGNAL_PATH_RESET::FIFO_FLUSH, length: 1 }` and data 1,
followed by `.unwrap()`. -/
def reset_fifo_on (bus : Bus) : Option Unit :=
  unwrap (set_register_bits_on bus Bank0.SignalPathReset.toDesc
    ⟨SIGNAL_PATH_RESET.FIFO_FLUSH, 1⟩ 1)

/-- `SpiBusInterface::read_register` from `interface.rs`: `tx_buffer` is the
single byte `[READ | address]` and `rx_buffer` is a single byte, so
`SpiBus::transfer` clocks exactly one byte; the function returns
`rx_buffer[0]`, the byte exchanged while the address byte itself is on the
wire.  Result: (device after, frames, returned byte). -/
def SpiBusInterface.read_register (dev : Dev) (address : Nat) :
    Dev × List (List Nat) × Nat :=
  let tx := [128 ||| address]
  let r := transferInPlace dev tx
  (r.1, [tx], r.2.getD 0 0)

/-- `SpiBusInterface::write_register` from `interface.rs`: writes the two-byte
buffer `[WRITE | address, buffer]`. -/
def SpiBusInterface.write_register (dev : Dev) (address : Nat) (buffer : Nat) :
    Dev × List (List Nat) :=
  let tx := [0 ||| address, buffer % 256]
  ((transferInPlace dev tx).1, [tx])

/-- Stated from the claims (refinement reference, not source): the mask with
ones exactly in bits `offset .. offset + length - 1`. -/
def claimFieldMask (offset length : Nat) : Nat :=
  ((1 <<< length) - 1) <<< offset

/-- Stated from the claims (refinement reference, not source): the byte a
read-modify-write field update is required to produce —
`(old AND NOT mask) OR (data << offset)`. -/
def claimFieldWrite (old offset length data : Nat) : Nat :=
  (old &&& (255 ^^^ claimFieldMask offset length)) ||| ((data <<< offset) % 256)

/-- Stated from the claims (refinement reference, not source): big-endian
two's-complement reassembly with the high byte taken from the lower-addressed
register. -/
def claimBeSigned (hi lo : Nat) : Int :=
  let v := (hi % 256) * 256 + lo % 256
  if v < 32768 then (v : Int) else (v : Int) - 65536

/-- A two-byte SPI frame whose first byte has the read bit set. -/
def isReadFrame (f : List Nat) : Bool :=
  match f with
  | [c, _] => c.testBit 7
  | _ => false

/-- A write frame addressed to `RegBankSel` (0x76): write frames carry the
bare 7-bit address, so their first byte is exactly 0x76 = 118. -/
def isBankSelWrite (f : List Nat) : Bool :=
  match f with
  | [c, _] => c == 118
  | _ => false

/-- Number of bank-select writes in a trace. -/
def countBankSel (tr : List (List Nat)) : Nat :=
  (tr.filter isBankSelWrite).length

/-- Mock device with every register zero. -/
def dev0 : Dev := fun _ => 0

/-- Mock device with every register 0xFF. -/
def devFF : Dev := fun _ => 255

/-- Mock device whose `WhoAmI` register holds the expected id 0x47. -/
def devID : Dev := fun a => if a = 0x75 then 0x47 else 0

/-- Mock device whose data registers hold the big-endian two's-complement
samples (4096, 0, -4096): `AccelDataX1` (high) = 0x10, `AccelDataX0` (low) =
0, the Y pair = 0, `AccelDataZ1` = 0xF0, `AccelDataZ0` = 0. -/
def devC2 : Dev := fun a =>
  if a = 0x1F then 0x10 else if a = 0x23 then 0xF0 else 0

/-- Mock device for the byte-order checks: every 16-bit quantity has high byte
(lower address) 1 and low byte 2 — `TempData1` = 1, `TempData0` = 2,
`FifoCountH` = 1, `FifoCountL` = 2, `AccelDataX1` = 1, `AccelDataX0` = 2. -/
def devC4 : Dev := fun a =>
  if a = 0x1D then 1 else if a = 0x1E then 2 else
  if a = 0x2E then 1 else if a = 0x2F then 2 else
  if a = 0x1F then 1 else if a = 0x20 then 2 else 0

/-- Mock device with distinct ODR fields in the two config registers:
`GyroConfig0` holds ODR code 7, `AccelConfig0` holds ODR code 6. -/
def devC9 : Dev := fun a =>
  if a = 0x4F then 7 else if a = 0x50 then 6 else 0

/-- A transport whose every transfer fails with a bus error. -/
def failBus : Bus := ⟨fun _ => .error ()⟩

/-- A register descriptor owned by bank 1 (`Bank1::GyroConfigStatic2`,
address 0x0B, which implements no `Register` in the source but is what a
bank-1 `&dyn Register` would expose). -/
def bank1Desc : RegisterDesc := ⟨0x0B, Bank.Bank1, true, true⟩

theorem testBit7_or128 (a : Nat) : (a ||| 128).testBit 7 = true := by
  rw [Nat.testBit_or]
  have h : Nat.testBit 128 7 = true := by decide
  rw [h, Bool.or_true]

theorem or128_ne_118 (a : Nat) : (a ||| 128) ≠ 118 := by
  intro h
  have h7 := testBit7_or128 a
  rw [h] at h7
  exact absurd h7 (by decide)

theorem foldl_and_from_zero (l : List Nat) :
    l.foldl (fun m i => m &&& (1 <<< i)) 0 = 0 := by
  induction l with
  | nil => rfl
  | cons h t ih => simpa [List.foldl, Nat.zero_and] using ih

/-- The loop in `BitRange::mask` starts at 0 and only takes `&=`, so the mask
is 0 for every bit range. -/
theorem mask_eq_zero (r : BitRange) : r.mask = 0 :=
  foldl_and_from_zero _

theorem read_register_dev_eq (dev : Dev) (reg : RegisterDesc) :
    (read_register dev reg).dev = dev := by
  have h := testBit7_or128 reg.address
  simp [read_register, transferInPlace, spiApplyFrame, SPI_READ_OPERATION, h]

theorem read_register_trace_eq (dev : Dev) (reg : RegisterDesc) :
    (read_register dev reg).trace = [[reg.address ||| 128, 0]] := by
  simp [read_register, SPI_READ_OPERATION]

theorem read_register_all_reads (dev : Dev) (reg : RegisterDesc) :
    ((read_register dev reg).trace.all isReadFrame) = true := by
  simp [read_register_trace_eq, isReadFrame, testBit7_or128,
    show Nat.testBit 128 7 = true from by decide]

theorem accel_range_dev_eq (dev : Dev) :
    (accel_range dev).dev = dev := by
  simp [accel_range, read_register_dev_eq]

theorem gyro_range_dev_eq (dev : Dev) :
    (gyro_range dev).dev = dev := by
  simp [gyro_range, read_register_dev_eq]

theorem raw_acceleration_dev_eq (dev : Dev) :
    (raw_acceleration dev).dev = dev := by
  simp [raw_acceleration, read_register_dev_eq]

theorem raw_angular_velocity_dev_eq (dev : Dev) :
    (raw_angular_velocity dev).dev = dev := by
  simp [raw_angular_velocity, read_register_dev_eq]

theorem raw_temperature_dev_eq (dev : Dev) :
    (raw_temperature dev).dev = dev := by
  simp [raw_temperature, read_register_dev_eq]

theorem raw_acceleration_all_reads (dev : Dev) :
    ((raw_acceleration dev).trace.all isReadFrame) = true := by
  simp [raw_acceleration, List.all_append, read_register_all_reads]

theorem raw_angular_velocity_all_reads (dev : Dev) :
    ((raw_angular_velocity dev).trace.all isReadFrame) = true := by
  simp [raw_angular_velocity, List.all_append, read_register_all_reads]

theorem raw_temperature_all_reads (dev : Dev) :
    ((raw_temperature dev).trace.all isReadFrame) = true := by
  simp [raw_temperature, List.all_append, read_register_all_reads]

/-- C1: the claim says a field write reads the byte and writes back
`(old AND NOT mask) OR (data << offset)` with `mask` having ones exactly in
the field's bits.  In the source, `BitRange::mask` accumulates with `&=`
starting from 0, so the mask is 0 for every bit range and the old field bits
are never cleared: with `AccelConfig0` at 0xFF, `set_accel_range(G16)` (field
offset 5, length 3, data 0) leaves the register byte at 0xFF, whereas the
field write of the claim produces 0x1F. -/
theorem c1_field_write_never_clears :
    (∀ r : BitRange, r.mask = 0) ∧
    (set_accel_range devFF AccelRange.G16).dev 0x50 = 0xFF ∧
    claimFieldWrite 0xFF 5 3 0 = 0x1F := by
  refine ⟨mask_eq_zero, by decide, by decide⟩

/-- C3 counterexample: a read of a register owned by bank 1 (different from
the power-on bank 0) issues zero bank-select writes, not the exactly one
that the claim requires. -/
theorem c3_no_bank_select_issued :
    countBankSel (read_register dev0 bank1Desc).trace ≠ 1 := by decide

/-- C3 amended: the driver keeps no cached bank and never issues a
bank-select write of its own accord: `read_register` and `write_register`
transmit exactly the single two-byte frame for the target register whatever
its owning bank, and only the explicit `select_bank` (which writes
unconditionally, ignoring its register argument) produces a write to
`RegBankSel`. -/
theorem c3_no_bank_machinery (dev : Dev) (reg : RegisterDesc) (data : Nat)
    (b : Bank) :
    (read_register dev reg).trace = [[reg.address ||| 128, 0]] ∧
    countBankSel (read_register dev reg).trace = 0 ∧
    (write_register dev reg data).trace = [[reg.address ||| 0, data % 256]] ∧
    (select_bank dev b).trace = [[118, b.code % 256]] ∧
    countBankSel (select_bank dev b).trace = 1 := by
  have h : isBankSelWrite [reg.address ||| 128, 0] = false :=
    beq_eq_false_iff_ne.mpr (or128_ne_118 reg.address)
  refine ⟨read_register_trace_eq dev reg, ?_, rfl, rfl, rfl⟩
  simp [countBankSel, read_register_trace_eq, List.filter, SPI_READ_OPERATION, h]

/-- C4: the claim says every 16-bit value is reassembled with the high byte
from the lower-addressed register (`TempData1`, `FifoCountH`, `AccelDataX1`).
The source passes the bytes to `u16::from_be_bytes` in the opposite order, so
with high byte 1 and low byte 2 in the registers the driver reassembles
0x0201 = 513 instead of the claimed 0x0102 = 258 — for the temperature pair,
the FIFO count pair and the X-axis pair alike. -/
theorem c4_byte_order_swapped :
    (raw_temperature devC4).res = 513 ∧
    claimBeSigned (devC4 0x1D) (devC4 0x1E) = 258 ∧
    (fifo_count devC4).res = 513 ∧
    claimBeSigned (devC4 0x2E) (devC4 0x2F) = 258 ∧
    (raw_acceleration devC4).res.1 = 513 ∧
    claimBeSigned (devC4 0x1F) (devC4 0x20) = 258 ∧
    (513 : Int) ≠ 258 := by decide

/-- C5 counterexample: code 1 is within `AccelMode`'s 2-bit field and is not
the discriminant of any `AccelMode` variant (those are 0, 2, 3), yet
`try_from` decodes it to `Off` rather than failing with `DataCorrupted`;
likewise code 3 for `FifoMode` (discriminants 0, 1, 2) decodes to
`StopOnFull`. -/
theorem c5_reserved_codes_accepted :
    AccelMode.try_from 1 = .ok AccelMode.Off ∧
    AccelMode.try_from 1 ≠ .error Error.DataCorrupted ∧
    FifoMode.try_from 3 = .ok FifoMode.StopOnFull ∧
    FifoMode.try_from 3 ≠ .error Error.DataCorrupted ∧
    AccelMode.Off.code = 0 ∧
    AccelMode.LowPower.code = 2 ∧
    AccelMode.LowNoise.code = 3 ∧
    FifoMode.Bypass.code = 0 ∧
    FifoMode.Stream.code = 1 ∧
    FifoMode.StopOnFull.code = 2 := by decide

/-- C5 amended: for every configuration enum, decoding a defined variant's
code round-trips and the code fits the declared bit-width; every in-width
code that is not a defined variant's code fails with `DataCorrupted`, except
the two aliases the source accepts deliberately: `AccelMode::try_from(0b01)`
is `Off` and `FifoMode::try_from(0b11)` is `StopOnFull`.  Decode is total on
`Nat`, so it never panics. -/
theorem c5_roundtrip_and_reserved :
    (∀ v : AccelOdr, AccelOdr.try_from v.code = .ok v ∧ v.code < 16) ∧
    (∀ v : GyroOdr, GyroOdr.try_from v.code = .ok v ∧ v.code < 16) ∧
    (∀ v : AccelRange, AccelRange.try_from v.code = .ok v ∧ v.code < 8) ∧
    (∀ v : GyroRange, GyroRange.try_from v.code = .ok v ∧ v.code < 8) ∧
    (∀ v : AccelMode, AccelMode.try_from v.code = .ok v ∧ v.code < 4) ∧
    (∀ v : GyroMode, GyroMode.try_from v.code = .ok v ∧ v.code < 4) ∧
    (∀ v : FifoMode, FifoMode.try_from v.code = .ok v ∧ v.code < 4) ∧
    (∀ v : PowerMode, PowerMode.try_from v.code = .ok v ∧ v.code < 16) ∧
    AccelOdr.try_from 0 = .error .DataCorrupted ∧
    GyroOdr.try_from 0 = .error .DataCorrupted ∧
    GyroOdr.try_from 12 = .error .DataCorrupted ∧
    GyroOdr.try_from 13 = .error .DataCorrupted ∧
    GyroOdr.try_from 14 = .error .DataCorrupted ∧
    AccelRange.try_from 4 = .error .DataCorrupted ∧
    AccelRange.try_from 5 = .error .DataCorrupted ∧
    AccelRange.try_from 6 = .error .DataCorrupted ∧
    AccelRange.try_from 7 = .error .DataCorrupted ∧
    GyroMode.try_from 2 = .error .DataCorrupted ∧
    AccelMode.try_from 1 = .ok AccelMode.Off ∧
    FifoMode.try_from 3 = .ok FifoMode.StopOnFull ∧
    PowerMode.try_from 1 = .error .DataCorrupted ∧
    PowerMode.try_from 5 = .error .DataCorrupted ∧
    PowerMode.try_from 6 = .error .DataCorrupted ∧
    PowerMode.try_from 7 = .error .DataCorrupted ∧
    PowerMode.try_from 8 = .error .DataCorrupted ∧
    PowerMode.try_from 9 = .error .DataCorrupted ∧
    PowerMode.try_from 10 = .error .DataCorrupted ∧
    PowerMode.try_from 11 = .error .DataCorrupted ∧
    PowerMode.try_from 13 = .error .DataCorrupted ∧
    PowerMode.try_from 14 = .error .DataCorrupted := by
  refine ⟨by decide, by decide, by decide, by decide, by decide, by decide,
    by decide, by decide, ?_⟩
  decide

/-- C2: after `set_accel_range(G8)`, `acceleration()` against a device whose
data registers hold the big-endian two's-complement samples (4096, 0, -4096)
is claimed to return (1, 0, -1) g.  The source passes the low-address
(`AccelData?0`) byte to `u16::from_be_bytes` first — swapping high and low —
and casts the `u16` with `as f32`, which is unsigned, so it returns
(16/4096, 0, 240/4096) = (1/256, 0, 15/256) instead; all the `f32`
arithmetic involved is exact. -/
theorem c2_acceleration_wrong_values :
    (acceleration (set_accel_range devC2 AccelRange.G8).dev).res =
      .ok ((1 : ℚ) / 256, 0, 15 / 256) ∧
    ((1 : ℚ) / 256, (0 : ℚ), (15 : ℚ) / 256) ≠ ((1 : ℚ), (0 : ℚ), (-1 : ℚ)) := by
  constructor
  · have h1 : (raw_acceleration (set_accel_range devC2 AccelRange.G8).dev).res
        = (16, 0, 240) := by decide
    have h2 : (accel_range
        (raw_acceleration (set_accel_range devC2 AccelRange.G8).dev).dev).res
        = .ok AccelRange.G8 := by decide
    simp only [acceleration]
    rw [h2, h1]
    norm_num [AccelRange.sensitivity_scale_factor]
  · norm_num [Prod.ext_iff]

/-- C6: `new` reads `WhoAmI` with the single frame `[0xF5, 0]`, succeeds
exactly when the device answers 0x47 and fails with `BadDeviceId` otherwise,
transmits nothing further either way (no retry, no configuration write), and
leaves the device register state unchanged. -/
theorem c6_new_identity_check (dev : Dev) :
    (new dev).res = (if dev 0x75 % 256 = 0x47 then Except.ok ()
      else Except.error Error.BadDeviceId) ∧
    (new dev).trace = [[0xF5, 0]] ∧
    (new dev).dev = dev := by
  refine ⟨?_, rfl, rfl⟩
  show (if ¬(dev 117 % 256 = 71) then Except.error Error.BadDeviceId
    else Except.ok ()) = _
  rw [ite_not]

/-- C7: the driver's own `read_register` does transfer exactly
`[0x80 | addr, 0]` and return the second received byte, and `write_register`
transfers `[addr, data]` with the top bit clear; but
`SpiBusInterface::read_register` in `interface.rs` — whose own comment says a
read takes two or more bytes — transfers the single byte `[0x80 | 0x75]` and
returns the byte clocked in while the address is still on the wire, not the
register value (0 instead of 0x47 here). -/
theorem c7_spi_frames :
    (read_register devID Bank0.WhoAmI.toDesc).trace = [[0xF5, 0]] ∧
    (read_register devID Bank0.WhoAmI.toDesc).res = 0x47 ∧
    (write_register devID Bank0.PwrMgmt0.toDesc 5).trace = [[0x4E, 5]] ∧
    (SpiBusInterface.read_register devID 0x75).2.1 = [[0xF5]] ∧
    ([0xF5] : List Nat).length ≠ 2 ∧
    (SpiBusInterface.read_register devID 0x75).2.2 = 0 ∧
    devID 0x75 = 0x47 ∧
    (0 : Nat) ≠ 0x47 ∧
    (SpiBusInterface.write_register devID 0x4E 5).2 = [[0x4E, 5]] := by decide

/-- C8: the claim fails in the source three ways: `WhoAmI`, `PwrMgmt0`,
`GyroConfig0` and `AccelConfig0` are missing from `readable()`, so the
`debug_assert!(reg.readable())` in `read_register` is violated by the public
accessors that read them; `SignalPathReset` and `RegBankSel` are missing from
`writable()`, violating the assertion in `write_register` for `reset_fifo`
and `select_bank`; and `reset_fifo` calls `.unwrap()` on the transfer result,
panicking (`none`) on a bus error instead of returning it. -/
theorem c8_asserts_violated_and_unwrap :
    Bank0.readable Bank0.WhoAmI = false ∧
    Bank0.readable Bank0.PwrMgmt0 = false ∧
    Bank0.readable Bank0.GyroConfig0 = false ∧
    Bank0.readable Bank0.AccelConfig0 = false ∧
    Bank0.writable Bank0.SignalPathReset = false ∧
    Bank0.writable Bank0.RegBankSel = false ∧
    reset_fifo_on failBus = none := by decide

/-- C9: `gyro_odr()` is claimed to read `GyroConfig0` (0x4F); the source reads
`AccelConfig0` (0x50).  On a device with ODR code 7 in `GyroConfig0` and code
6 in `AccelConfig0` the driver transmits the read frame for 0x50 and returns
`Hz1k` (code 6), where decoding `GyroConfig0`'s low four bits as the claim
requires gives `Hz200`.  (`gyro_range()` does read `GyroConfig0`.) -/
theorem c9_gyro_odr_reads_accel_config :
    (gyro_odr devC9).trace = [[0xD0, 0]] ∧
    (gyro_odr devC9).res = .ok GyroOdr.Hz1k ∧
    GyroOdr.try_from (devC9 0x4F &&& 0x0F) = .ok GyroOdr.Hz200 ∧
    GyroOdr.Hz1k ≠ GyroOdr.Hz200 ∧
    (gyro_range devC9).trace = [[0xCF, 0]] := by decide

/-- C10: every public read accessor leaves the device register file unchanged
and transmits only read frames, never a register write. -/
theorem c10_read_accessors_pure (dev : Dev) :
    (device_id dev).dev = dev ∧
    ((device_id dev).trace.all isReadFrame) = true ∧
    (accel_range dev).dev = dev ∧
    ((accel_range dev).trace.all isReadFrame) = true ∧
    (accel_odr dev).dev = dev ∧
    ((accel_odr dev).trace.all isReadFrame) = true ∧
    (gyro_range dev).dev = dev ∧
    ((gyro_range dev).trace.all isReadFrame) = true ∧
    (gyro_odr dev).dev = dev ∧
    ((gyro_odr dev).trace.all isReadFrame) = true ∧
    (power_mode dev).dev = dev ∧
    ((power_mode dev).trace.all isReadFrame) = true ∧
    (acceleration dev).dev = dev ∧
    ((acceleration dev).trace.all isReadFrame) = true ∧
    (angular_velocity dev).dev = dev ∧
    ((angular_velocity dev).trace.all isReadFrame) = true ∧
    (temperature_celsius dev).dev = dev ∧
    ((temperature_celsius dev).trace.all isReadFrame) = true ∧
    (temperature_fahrenheit dev).dev = dev ∧
    ((temperature_fahrenheit dev).trace.all isReadFrame) = true := by
  refine ⟨?_, ?_, ?_, ?_, ?_, ?_, ?_, ?_, ?_, ?_, ?_, ?_, ?_, ?_, ?_, ?_, ?_,
    ?_, ?_, ?_⟩ <;>
  simp [device_id, accel_range, accel_odr, gyro_range, gyro_odr, power_mode,
    acceleration, angular_velocity, temperature_celsius, temperature_fahrenheit,
    read_register_dev_eq, read_register_all_reads, raw_acceleration_dev_eq,
    raw_angular_velocity_dev_eq, raw_temperature_dev_eq, accel_range_dev_eq,
    gyro_range_dev_eq, raw_acceleration_all_reads, raw_angular_velocity_all_reads,
    raw_temperature_all_reads, List.all_append]

end Icm42688p
